import Mathlib

/-!
Shallow embedding of the cross-format reading-position subsystem
(cps/book_analyzer.py and cps/moonreader_sync.py).

Conventions of the embedding:
* Python strings are Lean `String`s, manipulated as `List Char` internally.
  Character classes (digits, whitespace, lower-casing) follow the ASCII
  behaviour of the corresponding Python operations.
* Python floats are modelled as exact rationals; the arithmetic appearing in
  the code (division, scaling by constants, `min`/`max` clamping) preserves
  the stated bounds identically under either semantics.
* File/zip I/O and HTML parsing by external libraries are abstracted: a
  content file becomes the string that was read, an archive becomes the list
  of spine-resolved contents, and a collaborator call becomes a parameter
  carrying its result.  Every computation the code performs on those values
  is translated directly.
* A Python function that catches all exceptions and returns None is modelled
  as a total function into `Option`; the one public operation that can let an
  exception escape (see `kobo_to_moonreader_position`) is modelled in
  `Except PyErr`.
-/

abbrev Chars := List Char

/-- ASCII whitespace recognised by Python's str.strip / str.split / regex \s. -/
def pyIsSpace (c : Char) : Bool :=
  c = ' ' || c = '\t' || c = '\n' || c = '\r' || c = '\x0b' || c = '\x0c'

/-- ASCII digit, as matched by the regex class \d and tested by str.isdigit. -/
def pyIsDigit (c : Char) : Bool :=
  '0' ≤ c && c ≤ '9'

/-- Python str.strip(): remove leading and trailing whitespace. -/
def pyStrip (s : Chars) : Chars :=
  ((s.dropWhile pyIsSpace).reverse.dropWhile pyIsSpace).reverse

/-- Python str.isdigit() on the whole string: nonempty and all digits. -/
def pyIsDigitStr (s : Chars) : Bool :=
  !s.isEmpty && s.all pyIsDigit

/-- Numeric value of a digit string (int() on a string of ASCII digits). -/
def natOfDigits (s : Chars) : Nat :=
  s.foldl (fun acc c => acc * 10 + (c.toNat - '0'.toNat)) 0

/-- Leftmost index at which the needle occurs in the haystack
    (Python str.find, returning None instead of -1). -/
def strFind : Chars → Chars → Option Nat
  | hay, needle =>
    if needle.isPrefixOf hay then some 0
    else
      match hay with
      | [] => none
      | _ :: t => (strFind t needle).map (· + 1)

/-- Python's `needle in hay` substring test. -/
def hasSub (hay needle : Chars) : Bool :=
  (strFind hay needle).isSome

/-- Python str.split(sep) for a single-character separator: empties kept. -/
def splitOnChar (sep : Char) : Chars → List Chars
  | [] => [[]]
  | c :: rest =>
    let r := splitOnChar sep rest
    if c = sep then [] :: r
    else
      match r with
      | h :: t => (c :: h) :: t
      | [] => [[c]]

/-- Python str.split() with no argument: split on whitespace runs, no empties.
    `cur` accumulates the current word in reverse. -/
def splitWsGo (cur : Chars) : Chars → List Chars
  | [] => if cur.isEmpty then [] else [cur.reverse]
  | c :: rest =>
    if pyIsSpace c then
      if cur.isEmpty then splitWsGo [] rest else cur.reverse :: splitWsGo [] rest
    else splitWsGo (c :: cur) rest

def splitWs (s : Chars) : List Chars :=
  splitWsGo [] s

/-- Number of non-overlapping occurrences of a nonempty needle
    (Python str.count; the code only counts "\n\n" and "\n \n").
    Fuel is the haystack length: each recursive step consumes at least one
    character, so the fuel never runs out on the initial call. -/
def countSubFuel : Nat → Chars → Chars → Nat
  | 0, _, _ => 0
  | fuel + 1, hay, needle =>
    if needle.isEmpty then 0
    else if needle.isPrefixOf hay then 1 + countSubFuel fuel (hay.drop needle.length) needle
    else
      match hay with
      | [] => 0
      | _ :: t => countSubFuel fuel t needle

def countSub (hay needle : Chars) : Nat :=
  countSubFuel (hay.length + 1) hay needle

/-- Index of the first occurrence of a character. -/
def findCharIdx (c : Char) : Chars → Option Nat
  | [] => none
  | x :: rest => if x = c then some 0 else (findCharIdx c rest).map (· + 1)

/-- re.sub(r'<[^>]+>', '', s): delete every maximal tag-like run.  A match
    needs at least one character between the angle brackets, so "<>" and an
    unterminated "<" are kept verbatim, exactly as the regex leaves them.
    Fuel is the string length (each step consumes at least one character). -/
def removeTagsFuel : Nat → Chars → Chars
  | 0, s => s
  | fuel + 1, s =>
    match s with
    | [] => []
    | c :: rest =>
      if c = '<' then
        match findCharIdx '>' rest with
        | some 0 => '<' :: removeTagsFuel fuel rest
        | some (k + 1) => removeTagsFuel fuel (rest.drop (k + 2))
        | none => '<' :: rest
      else c :: removeTagsFuel fuel rest

def removeTags (s : Chars) : Chars :=
  removeTagsFuel (s.length + 1) s

/-- re.sub(r'\s+', ' ', s): collapse every whitespace run to a single space.
    `prevSpace` records whether the previous character was inside a run. -/
def collapseWsGo : Bool → Chars → Chars
  | _, [] => []
  | prevSpace, c :: rest =>
    if pyIsSpace c then
      if prevSpace then collapseWsGo true rest else ' ' :: collapseWsGo true rest
    else c :: collapseWsGo false rest

/-- BookAnalyzer._strip_html_tags, regex-fallback branch: remove tags,
    normalise whitespace, strip the ends. -/
def stripHtmlTags (s : Chars) : Chars :=
  pyStrip (collapseWsGo false (removeTags s))

/-- Python str.lower() restricted to ASCII (all inputs in this development
    are ASCII). -/
def pyLower (s : Chars) : Chars :=
  s.map Char.toLower

/-! ## Data model (NamedTuples of book_analyzer.py) -/

/-- book_analyzer.ChapterInfo. -/
structure ChapterInfo where
  number : Nat
  title : String
  file_path : String
  start_position : Nat := 0
  length : Nat := 0
deriving Repr, DecidableEq

/-- book_analyzer.BookStructure. -/
structure BookStructure where
  chapters : List ChapterInfo
  total_chapters : Nat
  format_type : String
  spine_order : List String
deriving Repr, DecidableEq

/-- book_analyzer.PositionInfo.  `chapter` is an Int because the structural
    fallback can produce min(chapter_num, total_chapters - 1) < 0. -/
structure PositionInfo where
  chapter : Int
  paragraph : Nat
  character_offset : Nat
  chapter_progress : ℚ
  part : Option Nat := none
  chapter_in_part : Option Nat := none
  is_part_header : Bool := false
deriving Repr, DecidableEq

/-- The span-extraction record built by the span locator (the dict with keys
    text/file/position/context returned per matching file). -/
structure SpanInfo where
  text : String
  file : String
  position : Nat
  context : String
deriving Repr, DecidableEq

/-! ## Kobo location parsing (BookAnalyzer._parse_kobo_location) -/

/-- re.search(r'[Cc]hapter(\d+)', s): leftmost occurrence of "Chapter" or
    "chapter" immediately followed by at least one digit; the greedy \d+
    takes the whole digit run. -/
def searchChapterNum : Chars → Option Nat
  | [] => none
  | c :: rest =>
    if (c = 'C' || c = 'c') && ("hapter".data.isPrefixOf rest) then
      let digits := (rest.drop 6).takeWhile pyIsDigit
      if digits.isEmpty then searchChapterNum rest else some (natOfDigits digits)
    else searchChapterNum rest

/-- Helper for re.search(r'/(\d+)\.x?html', s): does the suffix after the
    digit run begin with ".html" or ".xhtml"? -/
def matchDotXHtml : Chars → Bool
  | '.' :: 'x' :: 'h' :: 't' :: 'm' :: 'l' :: _ => true
  | '.' :: 'h' :: 't' :: 'm' :: 'l' :: _ => true
  | _ => false

/-- re.search(r'/(\d+)\.x?html', s), returning the captured number. -/
def searchSlashNumHtml : Chars → Option Nat
  | [] => none
  | c :: rest =>
    if c = '/' then
      let digits := rest.takeWhile pyIsDigit
      if !digits.isEmpty && matchDotXHtml (rest.drop digits.length) then
        some (natOfDigits digits)
      else searchSlashNumHtml rest
    else searchSlashNumHtml rest

/-- re.search(r'#kobo\.(\d+)\.(\d+)', s), returning the two captured numbers. -/
def searchKoboFrag : Chars → Option (Nat × Nat)
  | [] => none
  | c :: rest =>
    if c = '#' && ("kobo.".data.isPrefixOf rest) then
      let after := rest.drop 5
      let d1 := after.takeWhile pyIsDigit
      let after2 := after.drop d1.length
      match after2 with
      | '.' :: tail =>
        let d2 := tail.takeWhile pyIsDigit
        if !d1.isEmpty && !d2.isEmpty then some (natOfDigits d1, natOfDigits d2)
        else searchKoboFrag rest
      | _ => searchKoboFrag rest
    else searchKoboFrag rest

/-- The `'!' in kobo_location` branch of _parse_kobo_location.  When '!'
    occurs, split('!') always yields at least two parts, so the inner length
    test (kept for fidelity) always passes. -/
def parseBangLocation (cs : Chars) : Option (Int × Nat) :=
  if cs.contains '!' && decide (2 ≤ (splitOnChar '!' cs).length) then
    let filePart := (splitOnChar '!' cs).getD 1 []
    let chapterNum : Int :=
      match searchChapterNum filePart with
      | some n => (n : Int) - 1
      | none =>
        match searchSlashNumHtml filePart with
        | some n => (n : Int)
        | none => 0
    let position : Nat :=
      if hasSub cs "#kobo.".data then
        match searchKoboFrag cs with
        | some p => p.2
        | none => 0
      else 0
    some (chapterNum, position)
  else none

/-- The `kobo.X.Y` branch of _parse_kobo_location: startswith('kobo.'),
    exactly two dots, and both numeric components nonempty digit strings. -/
def parseSimpleKobo (cs : Chars) : Option (Int × Nat) :=
  if ("kobo.".data.isPrefixOf cs) && decide ((cs.filter (· = '.')).length = 2) then
    let parts := splitOnChar '.' cs
    if decide (parts.length = 3) && pyIsDigitStr (parts.getD 1 []) && pyIsDigitStr (parts.getD 2 []) then
      some ((natOfDigits (parts.getD 1 []) : Int) - 1, natOfDigits (parts.getD 2 []))
    else none
  else none

/-- The `'/' in kobo_location` branch of _parse_kobo_location. -/
def parseSlashLocation (cs : Chars) : Option (Int × Nat) :=
  if cs.contains '/' then
    let parts := splitOnChar '/' cs
    if decide (2 ≤ parts.length) && pyIsDigitStr (parts.getD 0 []) then
      some ((natOfDigits (parts.getD 0 []) : Int) - 1,
            if pyIsDigitStr (parts.getD 1 []) then natOfDigits (parts.getD 1 []) else 0)
    else none
  else none

/-- BookAnalyzer._parse_kobo_location (the kepub_structure argument is unused
    by the source body and omitted).  Falls through the three recognised
    grammars in order; an unrecognised string yields (None, 0). -/
def parse_kobo_location (loc : String) : Option Int × Nat :=
  let cs := loc.data
  match parseBangLocation cs with
  | some r => (some r.1, r.2)
  | none =>
    match parseSimpleKobo cs with
    | some r => (some r.1, r.2)
    | none =>
      match parseSlashLocation cs with
      | some r => (some r.1, r.2)
      | none => (none, 0)

/-! ## Structural fallback (BookAnalyzer._fallback_structural_mapping) -/

/-- BookAnalyzer._fallback_structural_mapping.  The two structure arguments
    abstract analyze_kepub_structure / analyze_epub_structure on the two
    files; None models analysis failure (a BookStructure value is a nonempty
    NamedTuple and hence always truthy). -/
def fallback_structural_mapping (loc : String)
    (kepubStructure epubStructure : Option BookStructure) : Option PositionInfo :=
  match kepubStructure, epubStructure with
  | some _, some es =>
    match parse_kobo_location loc with
    | (none, _) => none
    | (some chapterNum, position) =>
      let epubChapter : Int := min chapterNum ((es.total_chapters : Int) - 1)
      let chapterProgress : ℚ :=
        if position > 100 then min (((position : ℚ) / 10000) * 100) 100
        else min (((position : ℚ) / 100) * 100) 100
      some ⟨epubChapter, position / 50, position % 50, chapterProgress, none, none, false⟩
  | _, _ => none

/-! ## Text matcher (BookAnalyzer._search_text_in_html / search_text_in_epub) -/

/-- Length of the common prefix of two word lists (a matching block of the
    sequence matcher, measured from a fixed pair of start offsets). -/
def commonRun : List Chars → List Chars → Nat
  | x :: xs, y :: ys => if x = y then commonRun xs ys + 1 else 0
  | _, _ => 0

/-- A matching block as returned by difflib's find_longest_match:
    start in a, start in b, length. -/
structure LMatch where
  a : Nat
  b : Nat
  size : Nat
deriving Repr, DecidableEq

/-- difflib.SequenceMatcher(None, a, b).find_longest_match(0, len(a), 0, len(b))
    on word lists: the longest contiguous common block, ties resolved to the
    earliest start in a and then the earliest start in b.  Candidates are
    enumerated in lexicographic (i, j) order and only a strictly larger block
    replaces the current best, which realises exactly that tie-break.
    (difflib's autojunk heuristic only affects sequences of 200 or more
    elements and is not modelled.) -/
def findLongestMatch (as bs : List Chars) : LMatch :=
  let cands := (List.range as.length).flatMap fun i =>
    (List.range bs.length).map fun j => LMatch.mk i j (commonRun (as.drop i) (bs.drop j))
  cands.foldl (fun best c => if best.size < c.size then c else best) ⟨0, 0, 0⟩

/-- The per-match record built by _search_text_in_html. -/
structure MatchInfo where
  position : Nat
  paragraph : Nat
  matched_text : String
deriving Repr, DecidableEq

/-- BookAnalyzer._search_text_in_html: exact substring search on the
    tag-stripped text, then (for targets longer than 20 characters) the
    fuzzy word-sequence alignment accepted when the matched block exceeds
    60% of the target word count (size > 0.6 * len in the source; over the
    integers involved this is 5 * size > 3 * len), relocated via str.find
    on the space-joined matched words.  The paragraph estimate counts
    double-newline boundaries before the position, plus one. -/
def search_text_in_html (htmlContent targetText _context : String) : Option MatchInfo :=
  let plain := stripHtmlTags htmlContent.data
  let exactPos := strFind plain targetText.data
  let pos : Option Nat :=
    match exactPos with
    | some p => some p
    | none =>
      if 20 < targetText.data.length then
        let words := splitWs plain
        let targetWords := splitWs targetText.data
        let m := findLongestMatch words targetWords
        if 3 * targetWords.length < 5 * m.size then
          let matchedText := List.intercalate [' '] ((words.drop m.a).take m.size)
          strFind plain matchedText
        else none
      else none
  match pos with
  | none => none
  | some p =>
    let textBefore := plain.take p
    let paragraph := countSub textBefore ['\n', '\n'] + countSub textBefore ['\n', ' ', '\n'] + 1
    some ⟨p, paragraph, targetText⟩

/-- Loop body of BookAnalyzer.search_text_in_epub over the spine: `files`
    are the spine entries in order, where None abstracts an entry whose
    manifest lookup or archive read failed (the loop's `continue`, which
    still advances the chapter index).  On a match the chapter-relative
    progress is position / stripped-length * 100, capped at 100. -/
def searchTextInEpubGo (targetText context : String) :
    List (Option String) → Nat → Option PositionInfo
  | [], _ => none
  | none :: rest, idx => searchTextInEpubGo targetText context rest (idx + 1)
  | some content :: rest, idx =>
    match search_text_in_html content targetText context with
    | some mi =>
      let fileLength := (stripHtmlTags content.data).length
      let chapterProgress : ℚ :=
        if 0 < fileLength then ((mi.position : ℚ) / (fileLength : ℚ)) * 100 else 0
      some ⟨(idx : Int), mi.paragraph, mi.position, min chapterProgress 100, none, none, false⟩
    | none => searchTextInEpubGo targetText context rest (idx + 1)

/-- BookAnalyzer.search_text_in_epub with the archive abstracted to its
    spine-resolved content files. -/
def search_text_in_epub (files : List (Option String)) (targetText context : String) :
    Option PositionInfo :=
  searchTextInEpubGo targetText context files 0

/-! ## Span locator disambiguation (BookAnalyzer._find_span_in_kepub) -/

/-- One entry of the all_matches list of _find_span_in_kepub. -/
structure SpanMatch where
  file : String
  file_index : Nat
  file_position_percent : ℚ
  span_info : SpanInfo
deriving Repr, DecidableEq

/-- The collection loop of _find_span_in_kepub: `extractions` gives, per
    spine entry, the result of the literal id="span" prefilter plus text
    extraction on that entry's resolved content (None when the entry is
    missing from the manifest, unreadable, lacks the span id, or extraction
    fails).  n is len(spine_order).  file_position_percent is
    (file_index / len(spine_order)) * 100. -/
def collectSpanMatchesGo (n : Nat) : List (Option SpanInfo) → Nat → List SpanMatch
  | [], _ => []
  | none :: rest, i => collectSpanMatchesGo n rest (i + 1)
  | some si :: rest, i =>
    ⟨si.file, i, ((i : ℚ) / (n : ℚ)) * 100, si⟩ :: collectSpanMatchesGo n rest (i + 1)

def collectSpanMatches (extractions : List (Option SpanInfo)) : List SpanMatch :=
  collectSpanMatchesGo extractions.length extractions 0

/-- Python min(xs, key=k): the first element with minimal key (a later
    element replaces the current best only when strictly smaller). -/
def pyMinBy {α : Type} (key : α → ℚ) : List α → Option α
  | [] => none
  | h :: t => some (t.foldl (fun best m => if key m < key best then m else best) h)

/-- The no-progress (or single-match) preference of _find_span_in_kepub:
    first match whose file path contains one of the content keywords,
    otherwise the first match. -/
def preferContentMatch (ms : List SpanMatch) : Option SpanInfo :=
  let contentMatches := ms.filter fun m =>
    ["chapter", "content", "text", "part"].any fun kw => hasSub (pyLower m.file.data) kw.data
  match contentMatches with
  | m :: _ => some m.span_info
  | [] => (ms.head?).map SpanMatch.span_info

/-- BookAnalyzer._find_span_in_kepub, selection stage: with a reported
    progress percentage and more than one occurrence, pick the match whose
    spine position percentage is closest to the reported progress. -/
def find_span_in_kepub (extractions : List (Option SpanInfo))
    (progressPercent : Option ℚ) : Option SpanInfo :=
  let allMatches := collectSpanMatches extractions
  if allMatches.isEmpty then none
  else
    match progressPercent with
    | some p =>
      if 1 < allMatches.length then
        (pyMinBy (fun m => |m.file_position_percent - p|) allMatches).map SpanMatch.span_info
      else preferContentMatch allMatches
    | none => preferContentMatch allMatches

/-! ## Chapter synthesis from the spine (BookAnalyzer.analyze_epub_structure) -/

/-- Python dict lookup on the manifest assoc list: the value of the last
    binding for the key (dict assignment overwrites). -/
def dictLookup (m : List (String × String)) (k : String) : Option String :=
  m.reverse.lookup k

/-- The spine-fallback loop of analyze_epub_structure:
    `for i, spine_item in enumerate(spine_order[:20])`, appending a chapter
    for each spine item present in the manifest, numbered and titled by the
    enumerate index. -/
def synthSpineChaptersGo (manifest : List (String × String)) :
    List (Nat × String) → List ChapterInfo → List ChapterInfo
  | [], acc => acc
  | (i, sid) :: rest, acc =>
    match dictLookup manifest sid with
    | some href =>
      synthSpineChaptersGo manifest rest
        (acc ++ [⟨i, "Chapter " ++ toString (i + 1), href, 0, 0⟩])
    | none => synthSpineChaptersGo manifest rest acc

def synthSpineChapters (spine : List String) (manifest : List (String × String)) :
    List ChapterInfo :=
  synthSpineChaptersGo manifest (spine.take 20).enum []

/-- BookAnalyzer.analyze_epub_structure with the archive abstracted to the
    parsed OPF data (spine, manifest) and the TOC resolution result
    (_find_toc_items); the surrounding zipfile/OPF failure paths, which
    return None before any chapter is built, are outside this abstraction. -/
def analyze_epub_structure (tocItems : List (String × String))
    (spine : List String) (manifest : List (String × String)) : BookStructure :=
  let tocChapters := tocItems.enum.map fun p => ChapterInfo.mk p.1 p.2.1 p.2.2 0 0
  let chapters := if tocChapters.isEmpty then synthSpineChapters spine manifest else tocChapters
  ⟨chapters, chapters.length, "epub", spine⟩

/-! ## Part/Chapter classifier (BookAnalyzer._build_part_chapter_mapping) -/

/-- One value of the mapping built by _build_part_chapter_mapping. -/
structure PartChapterEntry where
  part : Nat
  chapter : Nat
  title : String
  is_part_header : Bool
  is_front_matter : Bool
deriving Repr, DecidableEq

def partIndicators : List String :=
  ["part", "partie", "deel", "teil", "book", "livre", "boek", "buch"]

/-- BookAnalyzer._detect_part_structure: some title whose lowered, stripped
    form contains a part indicator and starts with one. -/
def detect_part_structure (chapterTitles : List String) : Bool :=
  chapterTitles.any fun t =>
    let titleLower := pyStrip (pyLower t.data)
    (partIndicators.any fun ind => hasSub titleLower ind.data) &&
    (partIndicators.any fun ind => ind.data.isPrefixOf titleLower)

/-- BookAnalyzer._is_part_header. -/
def is_part_header (title : String) : Bool :=
  let titleLower := pyStrip (pyLower title.data)
  titleLower = "part one".data || titleLower = "part two".data ||
  titleLower = "part three".data ||
  titleLower = "part 1".data || titleLower = "part 2".data ||
  titleLower = "part 3".data ||
  (("part ".data.isPrefixOf titleLower) && decide ((splitWs titleLower).length = 2))

/-- BookAnalyzer._extract_part_number. -/
def extract_part_number (title : String) : Option Nat :=
  let titleLower := pyStrip (pyLower title.data)
  if titleLower = "part one".data then some 1
  else if titleLower = "part two".data then some 2
  else if titleLower = "part three".data then some 3
  else if titleLower = "part 1".data then some 1
  else if titleLower = "part 2".data then some 2
  else if titleLower = "part 3".data then some 3
  else none

/-- BookAnalyzer._extract_chapter_number: a bare Roman numeral I..X
    (case-insensitive) or a bare integer. -/
def extract_chapter_number (title : String) : Option Nat :=
  let titleStripped := pyStrip title.data
  let lowered := pyLower titleStripped
  if lowered = "i".data then some 1
  else if lowered = "ii".data then some 2
  else if lowered = "iii".data then some 3
  else if lowered = "iv".data then some 4
  else if lowered = "v".data then some 5
  else if lowered = "vi".data then some 6
  else if lowered = "vii".data then some 7
  else if lowered = "viii".data then some 8
  else if lowered = "ix".data then some 9
  else if lowered = "x".data then some 10
  else if pyIsDigitStr titleStripped then some (natOfDigits titleStripped)
  else none

def frontMatterKeywords : List String :=
  ["cover", "title", "copyright", "contents", "table", "toc", "preface", "foreword"]

/-- The front/back-matter keyword test of the classifier's else branch. -/
def isFrontMatterTitle (title : String) : Bool :=
  frontMatterKeywords.any fun kw => hasSub (pyLower title.data) kw.data

/-- The left-to-right pass of _build_part_chapter_mapping.  State:
    current index, current_part, chapter_in_part;  hasParts is the
    precomputed _detect_part_structure flag. -/
def partChapterLoop (hasParts : Bool) :
    List String → Nat → Nat → Nat → List (Nat × PartChapterEntry)
  | [], _, _, _ => []
  | rawTitle :: rest, idx, curPart, chInPart =>
    let title : String := ⟨pyStrip rawTitle.data⟩
    if is_part_header title then
      let newPart :=
        match extract_part_number title with
        | some n => n
        | none => curPart + 1
      (idx, ⟨newPart, 0, title, true, false⟩) ::
        partChapterLoop hasParts rest (idx + 1) newPart 1
    else
      match extract_chapter_number title with
      | some n =>
        if !hasParts && n = 1 && 1 < chInPart then
          (idx, ⟨curPart + 1, 1, title, false, false⟩) ::
            partChapterLoop hasParts rest (idx + 1) (curPart + 1) 1
        else
          (idx, ⟨curPart, n, title, false, false⟩) ::
            partChapterLoop hasParts rest (idx + 1) curPart n
      | none =>
        if isFrontMatterTitle title then
          (idx, ⟨0, 0, title, false, true⟩) ::
            partChapterLoop hasParts rest (idx + 1) curPart chInPart
        else
          (idx, ⟨curPart, chInPart, title, false, false⟩) ::
            partChapterLoop hasParts rest (idx + 1) curPart (chInPart + 1)

/-- BookAnalyzer._build_part_chapter_mapping, as the index-ordered list of
    (chapter index, entry) pairs of the mapping dict. -/
def build_part_chapter_mapping (chapters : List ChapterInfo) : List (Nat × PartChapterEntry) :=
  if chapters.isEmpty then []
  else partChapterLoop (detect_part_structure (chapters.map ChapterInfo.title))
    (chapters.map ChapterInfo.title) 0 1 1

/-! ## Moonreader wire format (moonreader_sync.py) -/

/-- moonreader_sync.sanitize_filename: replace the characters <>:"/\|?* by
    underscores. -/
def sanitize_filename (s : String) : String :=
  ⟨s.data.map fun c =>
    if ['<', '>', ':', '"', '/', '\\', '|', '?', '*'].contains c then '_' else c⟩

/-- The groups captured by re.match(r'(\d+)\*(\d+)@(\d+)#(\d+):([0-9.]+)%', s).
    The percent field is kept as the raw captured characters because the code
    feeds it to float() separately. -/
structure MRWire where
  timestamp : Nat
  chapter : Nat
  scrolled_chars : Nat
  screen_offset : Nat
  percentChars : Chars
deriving Repr, DecidableEq

/-- Consume a maximal nonempty digit run (\d+). -/
def takeDigits (cs : Chars) : Option (Nat × Chars) :=
  let d := cs.takeWhile pyIsDigit
  if d.isEmpty then none else some (natOfDigits d, cs.drop d.length)

/-- Consume one expected literal character. -/
def takeLit (c : Char) : Chars → Option Chars
  | x :: r => if x = c then some r else none
  | [] => none

/-- re.match(r'(\d+)\*(\d+)@(\d+)#(\d+):([0-9.]+)%', s): anchored at the
    start only — re.match does not anchor the end, so trailing characters
    after the '%' are ignored.  Each greedy run is followed by a literal
    outside its class, so maximal-run consumption is exact. -/
def parseWirePrefix (cs : Chars) : Option MRWire :=
  (takeDigits cs).bind fun p1 =>
  (takeLit '*' p1.2).bind fun r1 =>
  (takeDigits r1).bind fun p2 =>
  (takeLit '@' p2.2).bind fun r2 =>
  (takeDigits r2).bind fun p3 =>
  (takeLit '#' p3.2).bind fun r3 =>
  (takeDigits r3).bind fun p4 =>
  (takeLit ':' p4.2).bind fun r4 =>
    let pc := r4.takeWhile fun c => pyIsDigit c || c = '.'
    if pc.isEmpty then none
    else (takeLit '%' (r4.drop pc.length)).map fun _ =>
      ⟨p1.1, p2.1, p3.1, p4.1, pc⟩

/-- float() applied to a string drawn from the class [0-9.]+: defined when
    the string has at least one digit and at most one dot ("1.", ".5", "7"
    parse; ".", "1.2.3" raise ValueError, modelled as None).  The value is
    the exact decimal (the code's IEEE value is its nearest double). -/
def pyFloatOfDigitsDots (cs : Chars) : Option ℚ :=
  match splitOnChar '.' cs with
  | [d] => if d.isEmpty then none else some ((natOfDigits d : ℚ))
  | [a, b] =>
    if a.isEmpty && b.isEmpty then none
    else some ((natOfDigits a : ℚ) + (natOfDigits b : ℚ) / ((10 : ℚ) ^ b.length))
  | _ => none

/-- max(0.0, min(100.0, x)) as used to clamp progress values. -/
def clampQ (lo hi x : ℚ) : ℚ :=
  max lo (min hi x)

/-- int() truncation toward zero on a rational (only applied to non-negative
    values in this code, where it is the floor). -/
def pyIntTrunc (q : ℚ) : Int :=
  if q < 0 then -((-q).floor) else q.floor

/-- get_book_format's two outcomes ('kepub' when a KEPUB format row exists,
    else 'epub', which is also the default for a None book). -/
inductive BookFormat
  | epub
  | kepub
deriving Repr, DecidableEq

/-- The external collaborators consulted by moonreader_to_kobo_position,
    abstracted to their results for the book at hand:
    * epubTotalChapters — analyze_epub_structure(...).total_chapters when
      get_book_files finds an epub and the analysis returns a structure
      (None models a missing epub or a failed analysis; a returned
      BookStructure is a NamedTuple and always truthy, so a 0 count is
      still assigned);
    * format — get_book_format(book);
    * kepubSpanCount — count_total_kobo_spans on the kepub file when one is
      found (None models a missing kepub file);
    * progressToChapter — map_progress_to_epub_chapter as a function of the
      progress argument (it never raises: its body is wrapped in a
      try/except returning None);
    * title — the book's title attribute when present. -/
structure BookModel where
  epubTotalChapters : Option Nat
  format : BookFormat
  kepubSpanCount : Option Nat
  progressToChapter : ℚ → Option Nat
  title : Option String

/-- The record assembled by moonreader_to_kobo_position (the datetime is
    kept as the parsed millisecond timestamp). -/
structure MoonreaderResult where
  timestampMs : Nat
  progress_percent : ℚ
  location_value : String
  location_type : String
  location_source : String
deriving Repr, DecidableEq

/-- {:02d} formatting of a chapter number. -/
def pad2 (n : Nat) : String :=
  if n < 10 then "0" ++ toString n else toString n

/-- The kepub branch of moonreader_to_kobo_position's location generation. -/
def kepubLocationValue (b : BookModel) (bookProgress : ℚ) : String :=
  match b.kepubSpanCount with
  | some totalSpans =>
    if 0 < totalSpans then
      let target0 := (pyIntTrunc ((bookProgress / 100) * (totalSpans : ℚ))).toNat
      let targetSpan := max 1 (min totalSpans target0)
      match b.progressToChapter bookProgress with
      | some epubChapter =>
        (match b.title with
         | some t => sanitize_filename t
         | none => "book") ++
        ".kepub.epub!OEBPS/Text/Chapter" ++ pad2 (epubChapter + 1) ++
        ".xhtml#kobo." ++ toString targetSpan ++ ".1"
      | none => "kobo." ++ toString targetSpan ++ ".1"
    else "kobo.1.1"
  | none => "kobo.1.1"

/-- The epub branch of moonreader_to_kobo_position's location generation. -/
def epubLocationValue (w : MRWire) (book : Option BookModel) (bookProgress : ℚ) : String :=
  let koboChapter :=
    match book with
    | some b =>
      match b.progressToChapter bookProgress with
      | some epubChapter => epubChapter + 1
      | none => w.chapter + 1
    | none => w.chapter + 1
  let estimatedPosition := w.scrolled_chars * 100 + w.screen_offset
  toString koboChapter ++ "/" ++ toString estimatedPosition

/-- Last millisecond representable by datetime.fromtimestamp (end of year
    9999 UTC); a larger parsed timestamp makes fromtimestamp raise, which
    the function's outer except turns into None. -/
def MAX_FROMTIMESTAMP_MS : Nat := 253402300799999

/-- moonreader_sync.moonreader_to_kobo_position.  The content argument is
    Option String so that a None input (falsy) is representable; the book
    argument carries the abstracted collaborator results, None being a None
    book.  Every internal exception path of the source ends in None here. -/
def moonreader_to_kobo_position (content : Option String) (book : Option BookModel) :
    Option MoonreaderResult :=
  match content with
  | none => none
  | some raw =>
    let stripped := pyStrip raw.data
    if stripped.isEmpty then none
    else
      match parseWirePrefix stripped with
      | none => none
      | some w =>
        let actualChapters : Option Nat := book.bind BookModel.epubTotalChapters
        let estimatedChapters : Nat :=
          match actualChapters with
          | some n => if n = 0 then 50 else n
          | none => 50
        match pyFloatOfDigitsDots w.percentChars with
        | none => none
        | some chapterProgressVal =>
          let chapterStartPercent : ℚ := ((w.chapter : ℚ) / (estimatedChapters : ℚ)) * 100
          let chapterRangePercent : ℚ := ((1 : ℚ) / (estimatedChapters : ℚ)) * 100
          let bookProgress :=
            clampQ 0 100 (chapterStartPercent + (chapterProgressVal / 100) * chapterRangePercent)
          let loc : String × String × String :=
            match book with
            | some b =>
              match b.format with
              | BookFormat.kepub => (kepubLocationValue b bookProgress, "KoboSpan", "calibre-web")
              | BookFormat.epub => (epubLocationValue w book bookProgress, "text", "moonreader")
            | none => (epubLocationValue w none bookProgress, "text", "moonreader")
          if MAX_FROMTIMESTAMP_MS < w.timestamp then none
          else some ⟨w.timestamp, bookProgress, loc.1, loc.2.1, loc.2.2⟩

/-- Modelled from the spec: the spec's fixed wire grammar
    \d+ then * then \d+ then @ then \d+ then # then \d+ then : then
    \d+(\.\d+)? then %, anchored at both ends.  This is the spec-side
    definition that claim C2 compares with the code's actual parser. -/
def specWireGrammar (cs : Chars) : Bool :=
  let tail :=
    (takeDigits cs).bind fun p1 =>
    (takeLit '*' p1.2).bind fun r1 =>
    (takeDigits r1).bind fun p2 =>
    (takeLit '@' p2.2).bind fun r2 =>
    (takeDigits r2).bind fun p3 =>
    (takeLit '#' p3.2).bind fun r3 =>
    (takeDigits r3).bind fun p4 =>
    (takeLit ':' p4.2).bind fun r4 =>
    (takeDigits r4).bind fun p5 =>
      match p5.2 with
      | '.' :: r6 => (takeDigits r6).bind fun p6 => takeLit '%' p6.2
      | r6 => takeLit '%' r6
  tail = some []

/-! ## Kobo → Moonreader conversion (moonreader_sync.kobo_to_moonreader_position) -/

/-- The Python exceptions relevant to the boundary of
    kobo_to_moonreader_position. -/
inductive PyErr
  | unboundLocalError (name : String)
  | attributeError (name : String)
deriving Repr, DecidableEq

/-- ub.KoboBookmark, restricted to the attributes the conversion reads. -/
structure KoboBookmark where
  location_value : Option String
  location_source : Option String
  progress_percent : Option ℚ
deriving Repr, DecidableEq

/-- ub.KoboReadingState, restricted to the attributes the conversion reads.
    last_modified_ms is int(last_modified.timestamp() * 1000); None models a
    None last_modified, on which .timestamp() raises AttributeError. -/
structure KoboReadingState where
  current_bookmark : Option KoboBookmark
  last_modified_ms : Option Nat
deriving Repr, DecidableEq

/-- Python truthiness of an optional string (None and "" are falsy). -/
def truthyStr : Option String → Bool
  | some s => !s.isEmpty
  | none => false

/-- Python truthiness of an optional float (None and 0.0 are falsy). -/
def truthyQ : Option ℚ → Bool
  | some q => decide (q ≠ 0)
  | none => false

/-- moonreader_sync._estimate_position_fallback.  The book argument is
    reduced to get_book_format's result (None models a None book, for which
    the code uses 'epub').  Returns (chapter, scrolled_chars, screen_offset,
    chapter_progress). -/
def estimate_position_fallback (bookmark : KoboBookmark) (bookFormat : Option BookFormat) :
    Int × Nat × Nat × ℚ :=
  let fmt := bookFormat.getD BookFormat.epub
  let chapter : Int :=
    if truthyStr bookmark.location_value then
      if truthyQ bookmark.progress_percent then
        pyIntTrunc (((bookmark.progress_percent.getD 0) / 100) * 50)
      else 0
    else
      if truthyQ bookmark.progress_percent then
        pyIntTrunc (((bookmark.progress_percent.getD 0) / 100) * 50)
      else 0
  let offsets : Nat × Nat :=
    match bookmark.location_value with
    | none => (0, 0)
    | some lv =>
      if lv.isEmpty then (0, 0)
      else if fmt = BookFormat.kepub && lv.data.contains '!' then
        match searchKoboFrag lv.data with
        | some p => (min (p.2 / 100) 50, p.2 % 100)
        | none => (0, 0)
      else if lv.data.contains '/' then
        let parts := splitOnChar '/' lv.data
        if decide (2 ≤ parts.length) && pyIsDigitStr (parts.getD 1 []) then
          let position := natOfDigits (parts.getD 1 [])
          (min (position / 100) 50, position % 100)
        else (0, 0)
      else (0, 0)
  let chapterProgress : ℚ :=
    if truthyQ bookmark.progress_percent && decide (0 ≤ chapter) then
      let pp := bookmark.progress_percent.getD 0
      let chapterStartPercent : ℚ := ((chapter : ℚ) / 50) * 100
      let chapterEndPercent : ℚ := (((chapter : ℚ) + 1) / 50) * 100
      let chapterRange := chapterEndPercent - chapterStartPercent
      if chapterStartPercent ≤ pp then
        clampQ 0 100 (((pp - chapterStartPercent) / chapterRange) * 100)
      else 0
    else 0
  (chapter, offsets.1, offsets.2, chapterProgress)

/-- Python's '%.1f' formatting: nearest multiple of 0.1 (the source formats
    the nearest double with ties-to-even; no claim exercises an exact tie). -/
def formatQ1 (q : ℚ) : String :=
  let n : Int := round (q * 10)
  (if n < 0 then "-" else "") ++ toString (n.natAbs / 10) ++ "." ++ toString (n.natAbs % 10)

/-- The f-string of kobo_to_moonreader_position's return:
    timestamp*chapter@scrolled_chars#screen_offset:chapter_progress% with
    the progress printed to one decimal place. -/
def formatMoonreaderWire (timestamp : Nat) (chapter : Int)
    (scrolledChars screenOffset : Nat) (chapterProgress : ℚ) : String :=
  toString timestamp ++ "*" ++ toString chapter ++ "@" ++ toString scrolledChars ++
  "#" ++ toString screenOffset ++ ":" ++ formatQ1 chapterProgress ++ "%"

/-- The analysis state reached at the end of the source-aware try block of
    kobo_to_moonreader_position (chapter, scrolled_chars, screen_offset,
    chapter_progress). -/
structure InnerAnalysis where
  chapter : Int
  scrolled_chars : Nat
  screen_offset : Nat
  chapter_progress : ℚ
deriving Repr, DecidableEq

/-- The book as seen by kobo_to_moonreader_position: its format, and the
    outcome of the big try block guarded by `if book and
    bookmark.location_value` — every path inside that block (source-aware
    parsing, content-based mapping via map_kobo_position_to_epub, or
    _estimate_position_fallback) assigns all four position variables, and an
    exception raised inside it is caught by the except at the end of the
    block, which recomputes them with _estimate_position_fallback (modelled
    by tryOutcome = None). -/
structure KoboBookModel where
  format : BookFormat
  tryOutcome : KoboBookmark → Option InnerAnalysis

/-- moonreader_sync.kobo_to_moonreader_position.  The guarded branch binds
    the four position locals; when the guard `book and
    bookmark.location_value` is false the function falls through to the
    final log statement, whose f-string reads the local variable `chapter`
    that no executed branch has assigned — an UnboundLocalError. -/
def kobo_to_moonreader_position (state : Option KoboReadingState)
    (book : Option KoboBookModel) : Except PyErr (Option String) :=
  match state with
  | none => Except.ok none
  | some st =>
    match st.current_bookmark with
    | none => Except.ok none
    | some bm =>
      match st.last_modified_ms with
      | none => Except.error (PyErr.attributeError "timestamp")
      | some timestamp =>
        match book with
        | some b =>
          if truthyStr bm.location_value then
            let r :=
              match b.tryOutcome bm with
              | some a => (a.chapter, a.scrolled_chars, a.screen_offset, a.chapter_progress)
              | none => estimate_position_fallback bm (some b.format)
            Except.ok (some (formatMoonreaderWire timestamp r.1 r.2.1 r.2.2.1 r.2.2.2))
          else Except.error (PyErr.unboundLocalError "chapter")
        | none => Except.error (PyErr.unboundLocalError "chapter")

/-- map_kobo_position_to_epub with its collaborators abstracted: the text
    sample extracted from the kepub (None when extraction fails), the
    spine-resolved epub content files, the enhancement outcome, and the two
    structures used by the structural fallback.  Every failure path of the
    source ends in _fallback_structural_mapping; its own failures end in
    None.  The try/except closing the source function catches everything,
    so the model is total. -/
def map_kobo_position_to_epub (koboLocation : String)
    (sample : Option (String × String))
    (epubFiles : List (Option String))
    (enhance : PositionInfo → Option PositionInfo)
    (kepubStructure epubStructure : Option BookStructure) : Option PositionInfo :=
  match sample with
  | none => fallback_structural_mapping koboLocation kepubStructure epubStructure
  | some (text, context) =>
    match search_text_in_epub epubFiles text context with
    | some epubPosition =>
      match enhance epubPosition with
      | some enhanced => some enhanced
      | none => some epubPosition
    | none =>
      if 50 < context.data.length then
        let contextWords := splitWs context.data
        if 10 < contextWords.length then
          let middle := List.intercalate [' ']
            ((contextWords.drop (contextWords.length / 4)).take
              (3 * contextWords.length / 4 - contextWords.length / 4))
          match search_text_in_epub epubFiles ⟨middle⟩ "" with
          | some epubPosition =>
            match enhance epubPosition with
            | some enhanced => some enhanced
            | none => some epubPosition
          | none => fallback_structural_mapping koboLocation kepubStructure epubStructure
        else fallback_structural_mapping koboLocation kepubStructure epubStructure
      else fallback_structural_mapping koboLocation kepubStructure epubStructure

/-! ## Helper lemmas -/

theorem parseWirePrefix_nil : parseWirePrefix [] = none := rfl

theorem foldlMinBy_spec {α : Type} (key : α → ℚ) :
    ∀ (t : List α) (b : α),
      (t.foldl (fun best m => if key m < key best then m else best) b) ∈ b :: t ∧
      key (t.foldl (fun best m => if key m < key best then m else best) b) ≤ key b ∧
      ∀ x ∈ t, key (t.foldl (fun best m => if key m < key best then m else best) b) ≤ key x := by
  intro t
  induction t with
  | nil =>
    intro b
    refine ⟨List.mem_singleton.mpr rfl, le_refl _, ?_⟩
    intro x hx
    cases hx
  | cons m rest ih =>
    intro b
    simp only [List.foldl_cons]
    by_cases hc : key m < key b
    · simp only [if_pos hc]
      obtain ⟨hmem, hle, hall⟩ := ih m
      refine ⟨?_, le_trans hle (le_of_lt hc), ?_⟩
      · rcases List.mem_cons.mp hmem with h | h
        · exact List.mem_cons.mpr (Or.inr (List.mem_cons.mpr (Or.inl h)))
        · exact List.mem_cons.mpr (Or.inr (List.mem_cons.mpr (Or.inr h)))
      · intro x hx
        rcases List.mem_cons.mp hx with rfl | hx
        · exact hle
        · exact hall x hx
    · simp only [if_neg hc]
      obtain ⟨hmem, hle, hall⟩ := ih b
      refine ⟨?_, hle, ?_⟩
      · rcases List.mem_cons.mp hmem with h | h
        · exact List.mem_cons.mpr (Or.inl h)
        · exact List.mem_cons.mpr (Or.inr (List.mem_cons.mpr (Or.inr h)))
      · intro x hx
        rcases List.mem_cons.mp hx with rfl | hx
        · exact le_trans hle (not_lt.mp hc)
        · exact hall x hx

theorem pyMinBy_spec {α : Type} (key : α → ℚ) (l : List α) (m : α)
    (h : pyMinBy key l = some m) : m ∈ l ∧ ∀ x ∈ l, key m ≤ key x := by
  cases l with
  | nil => exact Option.noConfusion h
  | cons h0 t =>
    simp only [pyMinBy, Option.some.injEq] at h
    subst h
    obtain ⟨hmem, hle, hall⟩ := foldlMinBy_spec key t h0
    refine ⟨hmem, ?_⟩
    intro x hx
    rcases List.mem_cons.mp hx with rfl | hx
    · exact hle
    · exact hall x hx

theorem collectSpanMatchesGo_percent (n : Nat) :
    ∀ (l : List (Option SpanInfo)) (i : Nat) (m : SpanMatch),
      m ∈ collectSpanMatchesGo n l i →
      m.file_position_percent = ((m.file_index : ℚ) / (n : ℚ)) * 100 := by
  intro l
  induction l with
  | nil =>
    intro i m h
    cases h
  | cons o rest ih =>
    intro i m h
    cases o with
    | none => exact ih (i + 1) m h
    | some si =>
      rcases List.mem_cons.mp h with rfl | h
      · rfl
      · exact ih (i + 1) m h

theorem synthSpineChaptersGo_eq (manifest : List (String × String)) :
    ∀ (entries : List (Nat × String)) (acc : List ChapterInfo),
      synthSpineChaptersGo manifest entries acc =
        acc ++ entries.filterMap (fun p => (dictLookup manifest p.2).map
          fun href => ChapterInfo.mk p.1 ("Chapter " ++ toString (p.1 + 1)) href 0 0) := by
  intro entries
  induction entries with
  | nil =>
    intro acc
    simp [synthSpineChaptersGo]
  | cons e rest ih =>
    intro acc
    obtain ⟨i, sid⟩ := e
    simp only [synthSpineChaptersGo, List.filterMap_cons]
    cases hl : dictLookup manifest sid with
    | none => simp [ih]
    | some href => simp [ih, List.append_assoc]

/-! ## Claim theorems -/

/-- Claim C6: on the chapter title list ["Part One","I","II","Part Two","I"]
    the Part/Chapter classifier produces: index 0 a part-header entry with
    part 1 and chapter 0; index 1 part 1 chapter 1; index 2 part 1
    chapter 2; index 3 a part-header entry with part 2 and chapter 0;
    index 4 part 2 chapter 1. -/
theorem c6_part_chapter_scenario :
    build_part_chapter_mapping
      [⟨0, "Part One", "part1.html", 0, 0⟩, ⟨1, "I", "ch1.html", 0, 0⟩,
       ⟨2, "II", "ch2.html", 0, 0⟩, ⟨3, "Part Two", "part2.html", 0, 0⟩,
       ⟨4, "I", "ch3.html", 0, 0⟩] =
    [(0, ⟨1, 0, "Part One", true, false⟩),
     (1, ⟨1, 1, "I", false, false⟩),
     (2, ⟨1, 2, "II", false, false⟩),
     (3, ⟨2, 0, "Part Two", true, false⟩),
     (4, ⟨2, 1, "I", false, false⟩)] := by decide

/-- Claim C3 (code bug): the conversion boundary is not exception-free.
    With a reading state whose current_bookmark is set and a None book, the
    guard `if book and bookmark.location_value` is false, and the final
    log statement of kobo_to_moonreader_position reads the local variable
    `chapter` that no executed branch assigned: an UnboundLocalError
    escapes to the caller instead of a None result. -/
theorem c3_unbound_local_failure :
    kobo_to_moonreader_position
      (some ⟨some ⟨some "kobo.5.1", none, some 50⟩, some 1697743052498⟩) none =
    Except.error (PyErr.unboundLocalError "chapter") := rfl

/-- Claim C10: a None, empty, or whitespace-only input makes
    moonreader_to_kobo_position return None at the initial guard, for any
    book, with no exception. -/
theorem c10_empty_input_rejected :
    ∀ (s : Option String) (book : Option BookModel),
      (s = none ∨ ∃ t, s = some t ∧ pyStrip t.data = []) →
      moonreader_to_kobo_position s book = none := by
  intro s book h
  rcases h with rfl | ⟨t, rfl, ht⟩
  · rfl
  · simp [moonreader_to_kobo_position, ht]

theorem c10_empty_input_rejected_witness :
    moonreader_to_kobo_position (some " \t ") none = none :=
  c10_empty_input_rejected (some " \t ") none (Or.inr ⟨" \t ", rfl, by decide⟩)

/-- Claim C7, counterexample: with spine [s1, sX, s2] where sX has no
    manifest entry, the synthesized chapters are numbered and titled by the
    spine position (numbers 0 and 2, titles "Chapter 1" and "Chapter 3"),
    not by their position among the manifest-present spine ids (which the
    claim asserts would give numbers 0 and 1 and titles "Chapter 1" and
    "Chapter 2"). -/
theorem c7_spine_synthesis_counterexample :
    (synthSpineChapters ["s1", "sX", "s2"] [("s1", "c1.html"), ("s2", "c2.html")]).map
        ChapterInfo.title = ["Chapter 1", "Chapter 3"] ∧
    (synthSpineChapters ["s1", "sX", "s2"] [("s1", "c1.html"), ("s2", "c2.html")]).map
        ChapterInfo.number = [0, 2] ∧
    (["Chapter 1", "Chapter 3"] ≠ ["Chapter 1", "Chapter 2"]) ∧
    (([0, 2] : List Nat) ≠ [0, 1]) := by decide

/-- Claim C7, amended: when TOC resolution yields no entries,
    analyze_epub_structure synthesizes chapters from the first at-most-20
    spine positions, skipping ids absent from the manifest; the entry kept
    for spine position i carries number i, synthetic title "Chapter (i+1)"
    (indexed by spine position, not by count of kept entries), and the
    manifest file of that id.  In particular spine [s1,s2,s3] with all three
    ids in the manifest and no nav/ncx yields chapters "Chapter 1".."Chapter 3"
    at c1.html, c2.html, c3.html. -/
theorem c7_spine_synthesis_amended :
    (∀ (spine : List String) (manifest : List (String × String)),
      synthSpineChapters spine manifest =
        (spine.take 20).enum.filterMap (fun p => (dictLookup manifest p.2).map
          fun href => ChapterInfo.mk p.1 ("Chapter " ++ toString (p.1 + 1)) href 0 0)) ∧
    analyze_epub_structure [] ["s1", "s2", "s3"]
        [("s1", "c1.html"), ("s2", "c2.html"), ("s3", "c3.html")] =
      ⟨[⟨0, "Chapter 1", "c1.html", 0, 0⟩, ⟨1, "Chapter 2", "c2.html", 0, 0⟩,
        ⟨2, "Chapter 3", "c3.html", 0, 0⟩], 3, "epub", ["s1", "s2", "s3"]⟩ := by
  constructor
  · intro spine manifest
    simpa using synthSpineChaptersGo_eq manifest (spine.take 20).enum []
  · decide

theorem searchTextInEpubGo_progress_bounds (targetText context : String) :
    ∀ (files : List (Option String)) (idx : Nat) (r : PositionInfo),
      searchTextInEpubGo targetText context files idx = some r →
      0 ≤ r.chapter_progress ∧ r.chapter_progress ≤ 100 := by
  intro files
  induction files with
  | nil =>
    intro idx r h
    exact Option.noConfusion h
  | cons f rest ih =>
    intro idx r h
    cases f with
    | none => exact ih (idx + 1) r h
    | some content =>
      rw [searchTextInEpubGo] at h
      cases hmi : search_text_in_html content targetText context with
      | none =>
        rw [hmi] at h
        exact ih (idx + 1) r h
      | some mi =>
        rw [hmi] at h
        simp only [Option.some.injEq] at h
        subst h
        simp only
        constructor
        · apply le_min
          · split
            · have hnum : (0 : ℚ) ≤ (mi.position : ℚ) := Nat.cast_nonneg _
              have hden : (0 : ℚ) ≤ ((stripHtmlTags content.data).length : ℚ) := Nat.cast_nonneg _
              have := div_nonneg hnum hden
              nlinarith
            · exact le_refl 0
          · norm_num
        · exact min_le_right _ _

/-- Claim C1: the chapter_progress of any PositionInfo returned by the Text
    Matcher (search_text_in_epub, for any spine contents, target text and
    context string) lies within [0, 100] inclusive, and likewise for any
    PositionInfo returned by the structural fallback
    (_fallback_structural_mapping, for any kobo location string and any
    pair of analyzed structures). -/
theorem c1_chapter_progress_bounds :
    (∀ (files : List (Option String)) (targetText context : String) (r : PositionInfo),
      search_text_in_epub files targetText context = some r →
      0 ≤ r.chapter_progress ∧ r.chapter_progress ≤ 100) ∧
    (∀ (loc : String) (kepubStructure epubStructure : Option BookStructure) (r : PositionInfo),
      fallback_structural_mapping loc kepubStructure epubStructure = some r →
      0 ≤ r.chapter_progress ∧ r.chapter_progress ≤ 100) := by
  constructor
  · intro files targetText context r h
    exact searchTextInEpubGo_progress_bounds targetText context files 0 r h
  · intro loc ks es r h
    cases ks with
    | none => exact Option.noConfusion h
    | some k =>
      cases es with
      | none => exact Option.noConfusion h
      | some e =>
        rw [fallback_structural_mapping] at h
        cases hp : parse_kobo_location loc with
        | mk copt pos =>
          rw [hp] at h
          cases copt with
          | none => exact Option.noConfusion h
          | some c =>
            simp only [Option.some.injEq] at h
            subst h
            simp only
            have hnn : (0 : ℚ) ≤ (pos : ℚ) := Nat.cast_nonneg _
            constructor
            · split
              · apply le_min
                · nlinarith
                · norm_num
              · apply le_min
                · nlinarith
                · norm_num
            · split
              · exact min_le_right _ _
              · exact min_le_right _ _

theorem c1_chapter_progress_bounds_witness :
    0 ≤ (⟨0, 1, 0, 0, none, none, false⟩ : PositionInfo).chapter_progress ∧
    (⟨0, 1, 0, 0, none, none, false⟩ : PositionInfo).chapter_progress ≤ 100 := by
  apply c1_chapter_progress_bounds.1 [some "hello world"] "hello" ""
  have h1 : search_text_in_html "hello world" "hello" "" = some ⟨0, 1, "hello"⟩ := by decide
  have h2 : stripHtmlTags "hello world".data = "hello world".data := by decide
  simp only [search_text_in_epub, searchTextInEpubGo, h1, h2]
  norm_num [min_def]

/-- Claim C9: for every kobo location string whose parsed position is p, the
    structural fallback's PositionInfo has paragraph = p div 50 and
    character_offset = p mod 50, hence paragraph * 50 + character_offset = p
    and character_offset < 50.  (Parsed positions are always non-negative:
    every grammar branch reads them from digit runs.) -/
theorem c9_fallback_divmod :
    ∀ (loc : String) (kepubStructure epubStructure : Option BookStructure)
      (c : Int) (p : Nat) (r : PositionInfo),
      parse_kobo_location loc = (some c, p) →
      fallback_structural_mapping loc kepubStructure epubStructure = some r →
      r.paragraph = p / 50 ∧ r.character_offset = p % 50 ∧
      r.paragraph * 50 + r.character_offset = p ∧ r.character_offset < 50 := by
  intro loc ks es c p r hp h
  cases ks with
  | none => exact Option.noConfusion h
  | some k =>
    cases es with
    | none => exact Option.noConfusion h
    | some e =>
      rw [fallback_structural_mapping, hp] at h
      simp only [Option.some.injEq] at h
      subst h
      refine ⟨rfl, rfl, ?_, Nat.mod_lt p (by norm_num)⟩
      show p / 50 * 50 + p % 50 = p
      omega

theorem c9_fallback_divmod_witness :
    (2 : Nat) = 120 / 50 ∧ (20 : Nat) = 120 % 50 ∧
    (2 : Nat) * 50 + 20 = 120 ∧ (20 : Nat) < 50 := by
  have hp : parse_kobo_location "kobo.3.120" = (some 2, 120) := by decide
  have hf : fallback_structural_mapping "kobo.3.120"
      (some ⟨[], 0, "kepub", []⟩) (some ⟨[], 0, "epub", []⟩) =
      some ⟨-1, 2, 20, 6/5, none, none, false⟩ := by
    rw [fallback_structural_mapping, hp]
    norm_num [min_def]
  exact c9_fallback_divmod "kobo.3.120" (some ⟨[], 0, "kepub", []⟩)
    (some ⟨[], 0, "epub", []⟩) 2 120 ⟨-1, 2, 20, 6/5, none, none, false⟩ hp hf

/-- Claim C2, counterexample: the code's regex is anchored at the start
    only and its percent field is the class [0-9.]+, so the input
    "1*2@3#4:5%x" — which the claimed anchored grammar
    \d+\*\d+@\d+#\d+:\d+(\.\d+)?%$ rejects because of the trailing "x" —
    is nevertheless accepted and converted to a non-None result. -/
theorem c2_wire_grammar_counterexample :
    specWireGrammar (pyStrip "1*2@3#4:5%x".data) = false ∧
    moonreader_to_kobo_position (some "1*2@3#4:5%x") none =
      some ⟨1, 41/10, "3/304", "text", "moonreader"⟩ := by
  constructor
  · decide
  · have h1 : pyStrip "1*2@3#4:5%x".data = "1*2@3#4:5%x".data := by decide
    have h2 : parseWirePrefix "1*2@3#4:5%x".data = some ⟨1, 2, 3, 4, ['5']⟩ := by decide
    have h3 : pyFloatOfDigitsDots ['5'] = some 5 := by
      simp +decide [pyFloatOfDigitsDots, splitOnChar, natOfDigits]
    have h4 : epubLocationValue ⟨1, 2, 3, 4, ['5']⟩ none (41/10) = "3/304" := by decide
    simp only [moonreader_to_kobo_position, h1, h2, h3]
    norm_num [clampQ, min_def, max_def, MAX_FROMTIMESTAMP_MS]
    exact h4

/-- Claim C2, amended: moonreader_to_kobo_position returns None (with no
    exception) for every input whose stripped content does not match the
    start-anchored prefix pattern \d+\*\d+@\d+#\d+:[0-9.]+% and also when
    the captured percent field fails float parsing (no digit or more than
    one dot); in particular "abc*1@0#0:x%" yields None.  Trailing
    characters after the % are, however, accepted, so the claim's anchored
    grammar does not characterise the non-None results. -/
theorem c2_wire_grammar_amended :
    ∀ (s : String) (book : Option BookModel),
      (parseWirePrefix (pyStrip s.data) = none ∨
        ∃ w, parseWirePrefix (pyStrip s.data) = some w ∧
          pyFloatOfDigitsDots w.percentChars = none) →
      moonreader_to_kobo_position (some s) book = none := by
  intro s book h
  simp only [moonreader_to_kobo_position]
  cases he : (pyStrip s.data).isEmpty
  · rcases h with h | ⟨w, hw, hf⟩
    · simp [h]
    · simp [hw, hf]
  · simp

theorem c2_wire_grammar_amended_witness :
    moonreader_to_kobo_position (some "abc*1@0#0:x%") none = none :=
  c2_wire_grammar_amended "abc*1@0#0:x%" none (Or.inl (by decide))

/-- Claim C5: when the span occurs more than once and a reported progress
    percentage is supplied, _find_span_in_kepub returns the span_info of a
    collected match whose spine position percentage
    ((file_index / spine_length) * 100) is closest to the reported
    progress; and in the concrete scenario — matches at spine index 1 of 10
    (10%) and index 4 of 10 (40%), reported progress 40% — the match at
    index 4 is selected. -/
theorem c5_span_disambiguation :
    (∀ (extractions : List (Option SpanInfo)) (p : ℚ) (si : SpanInfo),
      1 < (collectSpanMatches extractions).length →
      find_span_in_kepub extractions (some p) = some si →
      ∃ m ∈ collectSpanMatches extractions, m.span_info = si ∧
        m.file_position_percent = ((m.file_index : ℚ) / ((extractions.length : Nat) : ℚ)) * 100 ∧
        ∀ m2 ∈ collectSpanMatches extractions,
          |m.file_position_percent - p| ≤ |m2.file_position_percent - p|) ∧
    find_span_in_kepub
      [none, some ⟨"t1", "a.html", 0, "c1"⟩, none, none, some ⟨"t2", "b.html", 0, "c2"⟩,
       none, none, none, none, none] (some 40) = some ⟨"t2", "b.html", 0, "c2"⟩ := by
  constructor
  · intro ex p si hlen hres
    have hne : (collectSpanMatches ex).isEmpty = false := by
      cases hie : (collectSpanMatches ex).isEmpty
      · rfl
      · rw [List.isEmpty_iff.mp hie] at hlen
        exact absurd hlen (by norm_num)
    unfold find_span_in_kepub at hres
    simp only [hne] at hres
    rw [if_pos hlen] at hres
    cases hm : pyMinBy (fun m => |m.file_position_percent - p|) (collectSpanMatches ex) with
    | none =>
      rw [hm] at hres
      simp at hres
    | some m =>
      rw [hm] at hres
      simp at hres
      obtain ⟨hmem, hmin⟩ := pyMinBy_spec _ _ m hm
      exact ⟨m, hmem, hres, collectSpanMatchesGo_percent ex.length ex 0 m hmem, hmin⟩
  · simp only [find_span_in_kepub, collectSpanMatches, collectSpanMatchesGo, pyMinBy, List.foldl]
    norm_num [abs]

theorem c5_span_disambiguation_witness :
    ∃ m ∈ collectSpanMatches
        [none, some ⟨"t1", "a.html", 0, "c1"⟩, none, none, some ⟨"t2", "b.html", 0, "c2"⟩,
         none, none, none, none, none],
      m.span_info = (⟨"t2", "b.html", 0, "c2"⟩ : SpanInfo) ∧
      m.file_position_percent = ((m.file_index : ℚ) /
        ((([none, some ⟨"t1", "a.html", 0, "c1"⟩, none, none, some ⟨"t2", "b.html", 0, "c2"⟩,
            none, none, none, none, none] : List (Option SpanInfo)).length : Nat) : ℚ)) * 100 ∧
      ∀ m2 ∈ collectSpanMatches
          [none, some ⟨"t1", "a.html", 0, "c1"⟩, none, none, some ⟨"t2", "b.html", 0, "c2"⟩,
           none, none, none, none, none],
        |m.file_position_percent - 40| ≤ |m2.file_position_percent - 40| := by
  apply c5_span_disambiguation.1 _ 40 _
  · decide
  · simp only [find_span_in_kepub, collectSpanMatches, collectSpanMatchesGo, pyMinBy, List.foldl]
    norm_num [abs]

/-- Claim C8, counterexample: the fuzzy-match threshold in
    _search_text_in_html is strict (match.size > 0.6 * word count), so an
    alignment matching exactly 60% of the target's words is rejected, not
    accepted.  Concretely, for the tag-free content
    "aaaa bbbb cccc xxxx yyyy" and the 24-character, 5-word target
    "aaaa bbbb cccc dddd eeee", exact search fails, the longest common word
    block has size 3 (exactly 60% of 5) and its re-location would succeed
    at position 0, yet the matcher returns None. -/
theorem c8_fuzzy_threshold_counterexample :
    search_text_in_html "aaaa bbbb cccc xxxx yyyy" "aaaa bbbb cccc dddd eeee" "" = none ∧
    strFind (stripHtmlTags "aaaa bbbb cccc xxxx yyyy".data)
      "aaaa bbbb cccc dddd eeee".data = none ∧
    20 < "aaaa bbbb cccc dddd eeee".data.length ∧
    5 * (findLongestMatch (splitWs (stripHtmlTags "aaaa bbbb cccc xxxx yyyy".data))
          (splitWs "aaaa bbbb cccc dddd eeee".data)).size =
      3 * (splitWs "aaaa bbbb cccc dddd eeee".data).length ∧
    0 < (findLongestMatch (splitWs (stripHtmlTags "aaaa bbbb cccc xxxx yyyy".data))
          (splitWs "aaaa bbbb cccc dddd eeee".data)).size ∧
    strFind (stripHtmlTags "aaaa bbbb cccc xxxx yyyy".data)
      (List.intercalate [' ']
        (((splitWs (stripHtmlTags "aaaa bbbb cccc xxxx yyyy".data)).drop
            (findLongestMatch (splitWs (stripHtmlTags "aaaa bbbb cccc xxxx yyyy".data))
              (splitWs "aaaa bbbb cccc dddd eeee".data)).a).take
          (findLongestMatch (splitWs (stripHtmlTags "aaaa bbbb cccc xxxx yyyy".data))
            (splitWs "aaaa bbbb cccc dddd eeee".data)).size)) = some 0 := by decide

/-- Claim C8, amended: when exact substring search fails and the target is
    longer than 20 characters, the word-sequence alignment is accepted
    exactly when its matched length strictly exceeds 60% of the target's
    word count (5 * size > 3 * count; an alignment of exactly 60% is
    rejected); an accepted alignment's matched word sequence, re-located by
    substring search, produces the returned character position together
    with the double-newline paragraph estimate. -/
theorem c8_fuzzy_threshold_amended :
    ∀ (html target ctx : String),
      strFind (stripHtmlTags html.data) target.data = none →
      20 < target.data.length →
      ((5 * (findLongestMatch (splitWs (stripHtmlTags html.data)) (splitWs target.data)).size ≤
          3 * (splitWs target.data).length →
        search_text_in_html html target ctx = none) ∧
       (∀ pos : Nat,
        3 * (splitWs target.data).length <
          5 * (findLongestMatch (splitWs (stripHtmlTags html.data)) (splitWs target.data)).size →
        strFind (stripHtmlTags html.data)
          (List.intercalate [' ']
            (((splitWs (stripHtmlTags html.data)).drop
                (findLongestMatch (splitWs (stripHtmlTags html.data))
                  (splitWs target.data)).a).take
              (findLongestMatch (splitWs (stripHtmlTags html.data))
                (splitWs target.data)).size)) = some pos →
        search_text_in_html html target ctx =
          some ⟨pos,
            countSub ((stripHtmlTags html.data).take pos) ['\n', '\n'] +
              countSub ((stripHtmlTags html.data).take pos) ['\n', ' ', '\n'] + 1,
            target⟩)) := by
  intro html target ctx hexact hlen
  constructor
  · intro hle
    simp only [search_text_in_html, hexact]
    rw [if_pos hlen]
    rw [if_neg (not_lt.mpr hle)]
  · intro pos hth hfound
    simp only [search_text_in_html, hexact]
    rw [if_pos hlen]
    rw [if_pos hth]
    rw [hfound]

theorem c8_fuzzy_threshold_amended_witness :
    search_text_in_html "aaaa bbbb cccc dddd yyyy" "aaaa bbbb cccc dddd eeee" "" =
      some ⟨0, 1, "aaaa bbbb cccc dddd eeee"⟩ := by
  have h := (c8_fuzzy_threshold_amended "aaaa bbbb cccc dddd yyyy"
    "aaaa bbbb cccc dddd eeee" "" (by decide) (by decide)).2 0 (by decide) (by decide)
  rw [h]
  decide

/-- Claim C4: for every accepted wire string with decoded chapter c and
    chapter-progress p, and chapter count N taken from the abstracted live
    EPUB structure analysis when it yields a positive count (otherwise the
    fixed default 50), the returned progress_percent equals
    (c/N)*100 + (p/100)*(100/N) clamped to [0, 100].  The timestamp bound
    excludes only inputs on which datetime.fromtimestamp itself raises. -/
theorem c4_book_progress_formula :
    ∀ (raw : String) (b : BookModel) (w : MRWire) (chapterProgressVal : ℚ),
      parseWirePrefix (pyStrip raw.data) = some w →
      pyFloatOfDigitsDots w.percentChars = some chapterProgressVal →
      (b.epubTotalChapters = none ∨ ∃ n, b.epubTotalChapters = some n ∧ 0 < n) →
      w.timestamp ≤ MAX_FROMTIMESTAMP_MS →
      (moonreader_to_kobo_position (some raw) (some b)).map MoonreaderResult.progress_percent =
        some (clampQ 0 100
          (((w.chapter : ℚ) / ((b.epubTotalChapters.getD 50 : Nat) : ℚ)) * 100 +
           (chapterProgressVal / 100) * (100 / ((b.epubTotalChapters.getD 50 : Nat) : ℚ)))) := by
  intro raw b w cpv hw hf hN hts
  have hne : (pyStrip raw.data).isEmpty = false := by
    cases he : (pyStrip raw.data).isEmpty
    · rfl
    · rw [List.isEmpty_iff.mp he, parseWirePrefix_nil] at hw
      exact Option.noConfusion hw
  have hest : (match (some b).bind BookModel.epubTotalChapters with
      | some n => if n = 0 then 50 else n
      | none => 50) = b.epubTotalChapters.getD 50 := by
    rcases hN with h | ⟨n, h, hn⟩
    · simp [h]
    · simp [h, Nat.pos_iff_ne_zero.mp hn]
  unfold moonreader_to_kobo_position
  simp only [hne]
  rw [hw]
  simp only [hf, hest]
  rw [if_neg (not_lt.mpr hts)]
  simp only [Bool.false_eq_true, if_false, Option.map_some', Option.some.injEq]
  congr 1
  ring

theorem c4_book_progress_formula_witness :
    (moonreader_to_kobo_position (some "100*2@3#4:30.0%")
      (some ⟨some 10, BookFormat.epub, none, fun _ => none, none⟩)).map
        MoonreaderResult.progress_percent =
      some (clampQ 0 100
        ((((2 : Nat) : ℚ) / ((10 : Nat) : ℚ)) * 100 +
         ((30 : ℚ) / 100) * (100 / ((10 : Nat) : ℚ)))) := by
  exact c4_book_progress_formula "100*2@3#4:30.0%"
    ⟨some 10, BookFormat.epub, none, fun _ => none, none⟩
    ⟨100, 2, 3, 4, ['3', '0', '.', '0']⟩ 30
    (by decide)
    (by simp +decide [pyFloatOfDigitsDots, splitOnChar, natOfDigits])
    (Or.inr ⟨10, rfl, by norm_num⟩)
    (by norm_num [MAX_FROMTIMESTAMP_MS])
